import Mathlib

/-!
Verification of the drf-tus upload protocol engine (`rest_framework_tus/views.py`).

The upload record, its lifecycle states and the four operations
(Create / Inspect / Append / Terminate) are shallowly embedded below.
`views.py` is the authority for the control flow of every operation;
the model-layer methods it calls (`write_data`, `get_or_create_temporary_file`,
`checksum_matches`, the serializer defaults) live in `models.py` / `utils.py`,
which are not part of the sources at hand, and are modelled from the spec where
needed (each such definition says so in its doc comment).
-/

namespace DrfTus

/-- Upload lifecycle states (`states.py`): `initial`, `receiving`, `saving`, `done`
(the spec's `Initial`, `Receiving`, `Saving`, `Completed`). -/
inductive UState where
  | initial
  | receiving
  | saving
  | done
deriving DecidableEq, Repr

/-- The upload record (spec §3; Django model `Upload`):
`guid` identifier, `upload_length` (signed, `-1` = deferred), `upload_offset`,
metadata key/value pairs, `filename`, lifecycle `state`, optional `expires`
timestamp, and whether a temporary file backs the upload. -/
structure Upload where
  guid : Nat
  uploadLength : Int
  uploadOffset : Int
  uploadMetadata : List (String × String)
  filename : String
  state : UState
  expires : Option Nat
  hasTempFile : Bool
deriving DecidableEq, Repr

/-- Configuration surface (`settings.py`): `TUS_MAX_FILE_SIZE` and
`TUS_UPLOAD_EXPIRES` (`none` = uploads never expire). -/
structure Config where
  maxFileSize : Int
  uploadExpires : Option Nat
deriving DecidableEq, Repr

/-- The persisted collection of upload records. -/
abbrev Store := List Upload

/-- `self.get_object()` over `get_queryset()` (views.py lines 260-261):
the queryset is `objects.all()` — every record, with no expiry filtering —
and the lookup is by the `guid` field. -/
def getObject (store : Store) (g : Nat) : Option Upload :=
  store.find? (fun u => u.guid == g)

/-- `upload.save()`: persist the in-memory record, replacing the stored
record with the same `guid`. -/
def saveStore (store : Store) (u : Upload) : Store :=
  store.map (fun v => if v.guid = u.guid then u else v)

/-- Modelled from the spec: `get_or_create_temporary_file` lives in `models.py`,
not among the sources. It ensures a temporary file backs the upload and
persists that fact; bookkeeping fields are untouched. -/
def withTemp (u : Upload) : Upload :=
  { u with hasTempFile := true }

/-- The state change of views.py lines 178-181: `if upload.state == states.INITIAL:
upload.start_receiving()` — an `Initial` record moves to `Receiving`, any other
state is left alone. -/
def afterStart (u : Upload) : Upload :=
  if u.state = UState.initial then { u with state := UState.receiving } else u

/-- The store as persisted by the pre-write section of `partial_update`
(temporary-file creation, then the `Initial → Receiving` transition with its
`upload.save()`). -/
def store2Of (store : Store) (u : Upload) : Store :=
  if u.state = UState.initial then
    saveStore (saveStore store (withTemp u)) (afterStart (withTemp u))
  else
    saveStore store (withTemp u)

/-- Modelled from the spec: `Upload.write_data` lives in `models.py`, not among
the sources. Per spec §4.3 Append it transitions the record into `Saving`
(reachable only from `Receiving`), invokes the chunk store append, and on
success advances `offset` by the chunk length, moving to `Completed` when
`declared_length >= 0` and the new offset equals it, else back to `Receiving`.
On storage failure it reverts to the prior state with the offset unchanged.
`writeOk` is the chunk store's verdict; `none` models the raised exception
(caught by views.py line 200). -/
def write_data (u : Upload) (chunk : List Nat) (writeOk : Bool) : Option Upload :=
  if u.state = UState.receiving then
    if writeOk then
      some { u with
        uploadOffset := u.uploadOffset + chunk.length,
        state :=
          if 0 ≤ u.uploadLength ∧ u.uploadOffset + chunk.length = u.uploadLength
          then UState.done else UState.receiving }
    else none
  else none

/-- Media type expected by the upload stream body parser
(`TusUploadStreamParser.media_type`). -/
def tusUploadStreamMediaType : String := "application/offset+octet-stream"

/-- `TusPatchMixin.validate_content_type` (views.py lines 223-230): for a missing
or wrong `Content-Type` it RETURNS a 400 response object (it raises nothing);
otherwise it returns `None`. -/
def validate_content_type (contentType : String) : Option Nat :=
  if contentType = "" ∨ contentType ≠ tusUploadStreamMediaType then some 400
  else none

/-- An Append (HTTP PATCH) request, already parsed by the adapter layer:
presence of the `Tus-Resumable` header, the `Upload-Offset` header value, the
chunk bytes, the optional `Upload-Checksum` header split into
(algorithm, digest), and the `Content-Type` header. -/
structure PatchRequest where
  hasTusHeader : Bool
  uploadOffset : Int
  chunk : List Nat
  checksum : Option (String × String)
  contentType : String
deriving DecidableEq, Repr

/-- Outcome of an Append: HTTP status, resulting store, whether the
`write_data` call was reached, and the guid carried by a `received` signal
if one fired. -/
structure PatchResult where
  status : Nat
  store : Store
  writeAttempted : Bool
  fired : Option Nat
deriving DecidableEq, Repr

/-- The checksum section of `partial_update` (views.py lines 186-194): with no
`Upload-Checksum` header nothing is checked; otherwise an unsupported algorithm
yields 400 and a digest mismatch yields 460. `supported` models
`tus_api_checksum_algorithms` and `cm` models `utils.checksum_matches`
(configuration and `utils.py` are not among the sources; the spec keeps the
verifier abstract: it compares the chunk's digest under the algorithm with the
declared digest). -/
def applyChecksum (supported : List String) (cm : String → String → List Nat → Bool)
    (checksum : Option (String × String)) (chunk : List Nat) : Option Nat :=
  match checksum with
  | none => none
  | some ad =>
    if ad.1 ∈ supported then
      if cm ad.1 ad.2 chunk then none else some 460
    else some 400

/-- The found-record part of `TusPatchMixin.partial_update` (views.py lines
169-221): offset conflict check (raising `Conflict`, 409), temporary-file
creation, the persisted `Initial → Receiving` transition, checksum validation,
the `write_data` call (an exception becomes a 400 response, line 201), and on
success a 204 response, with the `received` signal sent whenever
`upload_length == upload_offset` (lines 207-209). -/
def patchFound (supported : List String) (cm : String → String → List Nat → Bool)
    (writeOk : Bool) (store : Store) (g : Nat) (req : PatchRequest) (u : Upload) :
    PatchResult :=
  if req.uploadOffset ≠ u.uploadOffset then
    PatchResult.mk 409 store false none
  else
    match applyChecksum supported cm req.checksum req.chunk with
    | some s => PatchResult.mk s (store2Of store u) false none
    | none =>
      match write_data (afterStart (withTemp u)) req.chunk writeOk with
      | none => PatchResult.mk 400 (store2Of store u) true none
      | some u3 =>
        PatchResult.mk 204 (saveStore (store2Of store u) u3) true
          (if u3.uploadLength = u3.uploadOffset then some g else none)

/-- `TusPatchMixin.partial_update` (views.py lines 157-221). Note line 163: the
response constructed by `validate_content_type` is discarded — the local
binding below is dead, exactly as in the source. -/
def patch_update (supported : List String) (cm : String → String → List Nat → Bool)
    (writeOk : Bool) (store : Store) (g : Nat) (req : PatchRequest) : PatchResult :=
  if req.hasTusHeader then
    let _ := validate_content_type req.contentType
    match getObject store g with
    | none => PatchResult.mk 404 store false none
    | some u => patchFound supported cm writeOk store g req u
  else
    PatchResult.mk 400 store false none

/-- Outcome of an Inspect (HTTP HEAD): status and the `Upload-Offset`,
`Upload-Length` and `Upload-Expires` headers (the metadata header carries a
re-encoding of the stored metadata and is omitted here). -/
structure InfoResult where
  status : Nat
  uploadOffset : Option Int
  uploadLength : Option Int
  expiresHeader : Option Nat
deriving DecidableEq, Repr

/-- `TusHeadMixin.info` (views.py lines 55-80): missing `Tus-Resumable` header
is 400, an unknown guid is 404, and otherwise a 200 carrying the record's
offset, its length when `>= 0`, and its expiry. The record's `expires` field is
never compared against the clock. -/
def info (store : Store) (g : Nat) (hasTusHeader : Bool) : InfoResult :=
  if hasTusHeader then
    match getObject store g with
    | none => InfoResult.mk 404 none none none
    | some u =>
      InfoResult.mk 200 (some u.uploadOffset)
        (if 0 ≤ u.uploadLength then some u.uploadLength else none)
        u.expires
  else
    InfoResult.mk 400 none none none

/-- A Create (HTTP POST) request: presence of the `Tus-Resumable` header, the
optional `Upload-Length` header (`getattr` default `-1` when absent), the
optional `Upload-Defer-Length` header (`getattr` default `-1`), and the
decoded `Upload-Metadata`. -/
structure CreateRequest where
  hasTusHeader : Bool
  uploadLength : Option Int
  deferLength : Option Int
  metadata : List (String × String)
deriving DecidableEq, Repr

/-- The whole persistence state: the stored records plus the identifier
allocator (identifiers are UUIDs in the source — unique, never reused;
modelled as a fresh counter). -/
structure Sys where
  store : Store
  nextGuid : Nat
deriving DecidableEq, Repr

/-- Outcome of a Create: status, resulting system, created guid if any. -/
structure CreateResult where
  status : Nat
  sys : Sys
  createdGuid : Option Nat
deriving DecidableEq, Repr

/-- `upload_metadata.get(key, default)`. -/
def metaGet (m : List (String × String)) (k : String) (d : String) : String :=
  match m.find? (fun p => p.1 == k) with
  | some p => p.2
  | none => d

/-- Modelled from the spec: the record built by the serializer / model defaults
(`serializers.py` / `models.py`, not among the sources) — `state = Initial`,
`offset = 0`, metadata stored verbatim, `filename` read from the metadata —
combined with the expiry assignment of views.py lines 128-130
(`expires = now + TUS_UPLOAD_EXPIRES` when configured). -/
def mkUpload (cfg : Config) (now : Nat) (sys : Sys) (req : CreateRequest) : Upload :=
  Upload.mk sys.nextGuid (req.uploadLength.getD (-1)) 0 req.metadata
    (metaGet req.metadata ("filename") ("")) UState.initial
    (cfg.uploadExpires.map (fun d => now + d)) false

/-- `TusCreateMixin.create` (views.py lines 84-139): missing tus header is 400;
`upload_length > TUS_MAX_FILE_SIZE` is 413; then
`if not upload_length or upload_length < 0` — note Python's `not 0` is true, so
a declared length of `0` is lumped with the deferred case — a missing
`Upload-Defer-Length: 1` is 400; otherwise a record is created (201). -/
def create (cfg : Config) (now : Nat) (sys : Sys) (req : CreateRequest) :
    CreateResult :=
  if req.hasTusHeader then
    if cfg.maxFileSize < req.uploadLength.getD (-1) then
      CreateResult.mk 413 sys none
    else
      if (req.uploadLength.getD (-1) = 0 ∨ req.uploadLength.getD (-1) < 0) ∧
          req.deferLength.getD (-1) ≠ 1 then
        CreateResult.mk 400 sys none
      else
        CreateResult.mk 201
          (Sys.mk (sys.store ++ [mkUpload cfg now sys req]) (sys.nextGuid + 1))
          (some sys.nextGuid)
  else
    CreateResult.mk 400 sys none

/-- Outcome of a Terminate (HTTP DELETE). -/
structure DestroyResult where
  status : Nat
  store : Store
deriving DecidableEq, Repr

/-- `TusTerminateMixin.destroy` (views.py lines 234-246): unknown guid is 404
(the `Http404` of `get_object`); a record in state `saving` is 409 and is kept;
any other record is deleted (`perform_destroy`) with 204. -/
def destroy (store : Store) (g : Nat) : DestroyResult :=
  match getObject store g with
  | none => DestroyResult.mk 404 store
  | some u =>
    if u.state = UState.saving then DestroyResult.mk 409 store
    else DestroyResult.mk 204 (store.filter (fun v => !(v.guid == g)))

/-- One inbound protocol operation, as dispatched to the view set. -/
inductive Op where
  | createOp (now : Nat) (req : CreateRequest)
  | headOp (g : Nat) (hasTusHeader : Bool)
  | patchOp (g : Nat) (req : PatchRequest) (writeOk : Bool)
  | destroyOp (g : Nat)

/-- One operation against the system; the second component is the guid of a
`received` signal if the operation sent one (only Append ever does,
views.py line 209). -/
def step (cfg : Config) (supported : List String)
    (cm : String → String → List Nat → Bool) (sys : Sys) (op : Op) :
    Sys × Option Nat :=
  match op with
  | Op.createOp now req => ((create cfg now sys req).sys, none)
  | Op.headOp _ _ => (sys, none)
  | Op.patchOp g req writeOk =>
    (Sys.mk (patch_update supported cm writeOk sys.store g req).store sys.nextGuid,
      (patch_update supported cm writeOk sys.store g req).fired)
  | Op.destroyOp g => (Sys.mk (destroy sys.store g).store sys.nextGuid, none)

/-- Run a sequence of operations, accumulating every `received` signal sent. -/
def runAcc (cfg : Config) (supported : List String)
    (cm : String → String → List Nat → Bool) (sys : Sys) (fired : List Nat) :
    List Op → Sys × List Nat
  | [] => (sys, fired)
  | op :: rest =>
    runAcc cfg supported cm (step cfg supported cm sys op).1
      (fired ++ (step cfg supported cm sys op).2.toList) rest

/-- The `received` signals sent over a run of the system from its pristine
state (no records, no identifier allocated yet). -/
def runFired (cfg : Config) (supported : List String)
    (cm : String → String → List Nat → Bool) (ops : List Op) : List Nat :=
  (runAcc cfg supported cm (Sys.mk [] 0) [] ops).2

/-- Invariant tying a system state to the `received` signals already sent:
the signal list has no duplicate guid, every signal guid and every stored guid
has been allocated, stored offsets are non-negative, and a record whose guid
already carries a signal is in state `done`. -/
def SysInv (sys : Sys) (fired : List Nat) : Prop :=
  fired.Nodup ∧
  (∀ g ∈ fired, g < sys.nextGuid) ∧
  (∀ u ∈ sys.store, u.guid < sys.nextGuid) ∧
  (∀ u ∈ sys.store, 0 ≤ u.uploadOffset) ∧
  (∀ g ∈ fired, ∀ u ∈ sys.store, u.guid = g → u.state = UState.done)

/-! ### Concrete fixtures for witnesses and counterexamples -/

/-- A checksum verifier that accepts every digest. -/
def cmTrue : String → String → List Nat → Bool := fun _ _ _ => true

/-- A checksum verifier that rejects every digest. -/
def cmFalse : String → String → List Nat → Bool := fun _ _ _ => false

/-- Sample configuration: 100-byte maximum, no expiry configured. -/
def cfgW : Config := ⟨100, none⟩

/-- Sample supported checksum algorithm set. -/
def supportedW : List String := ["sha1"]

/-- The stream parser's media type, as a fixture string. -/
def ctW : String := "application/offset+octet-stream"

/-- A fresh record: declared length 100, offset 0, state `initial`. -/
def uInitialW : Upload := ⟨0, 100, 0, [], "", UState.initial, none, false⟩

/-- A mid-upload record: offset 40 of 100, state `receiving`, expiry 5. -/
def uRecvW : Upload := ⟨0, 100, 40, [], "", UState.receiving, some 5, true⟩

/-- A completed record: offset 100 of 100, state `done`. -/
def uDoneW : Upload := ⟨7, 100, 100, [], "", UState.done, none, true⟩

/-- A record caught mid-write: state `saving`. -/
def uSavingW : Upload := ⟨3, 100, 40, [], "", UState.saving, none, true⟩

/-- Append at the matching offset 40, no checksum. -/
def reqPatch40 : PatchRequest := ⟨true, 40, [1, 2, 3], none, ctW⟩

/-- Append at offset 0 (stale against `uRecvW`), no checksum. -/
def reqPatch0 : PatchRequest := ⟨true, 0, [1, 2, 3], none, ctW⟩

/-- Zero-length probe Append at offset 100 against a completed record. -/
def reqPatchDone : PatchRequest := ⟨true, 100, [], none, ctW⟩

/-- Append with a checksum the verifier will reject. -/
def reqPatchBadCk : PatchRequest := ⟨true, 0, [1, 2, 3], some ("sha1", "bad"), ctW⟩

/-- Append declaring an unsupported checksum algorithm. -/
def reqPatchBadAlgo : PatchRequest := ⟨true, 40, [1, 2, 3], some ("md5", "aaa"), ctW⟩

/-- Append without the `Tus-Resumable` header. -/
def reqPatchNoHdr : PatchRequest := ⟨false, 40, [1, 2, 3], none, ctW⟩

/-- Create declaring length 50, no defer signal. -/
def reqCreate50 : CreateRequest := ⟨true, some 50, none, []⟩

/-- Create declaring length 0, no defer signal. -/
def reqCreate0 : CreateRequest := ⟨true, some 0, none, []⟩

/-- Create declaring length 3, no defer signal. -/
def reqCreate3 : CreateRequest := ⟨true, some 3, none, []⟩

/-- Append at offset 0 with the full 3 declared bytes. -/
def reqPatchFull : PatchRequest := ⟨true, 0, [1, 2, 3], none, ctW⟩

/-- The pristine system. -/
def sysW : Sys := ⟨[], 0⟩

/-! ### Basic lemmas about the store and record helpers -/

theorem getObject_eq_some {store : Store} {g : Nat} {u : Upload}
    (h : getObject store g = some u) : u ∈ store ∧ u.guid = g := by
  unfold getObject at h
  refine ⟨List.mem_of_find?_eq_some h, ?_⟩
  have hp := List.find?_some h
  simpa using hp

theorem mem_saveStore {store : Store} {u v : Upload}
    (h : v ∈ saveStore store u) : v = u ∨ (v ∈ store ∧ v.guid ≠ u.guid) := by
  unfold saveStore at h
  obtain ⟨w, hw, hveq⟩ := List.mem_map.1 h
  by_cases hg : w.guid = u.guid
  · left
    simp only [hg, if_pos rfl] at hveq
    exact hveq.symm
  · right
    simp only [if_neg hg] at hveq
    exact hveq ▸ ⟨hw, hg⟩

theorem withTemp_guid (u : Upload) : (withTemp u).guid = u.guid := rfl

theorem withTemp_offset (u : Upload) : (withTemp u).uploadOffset = u.uploadOffset := rfl

theorem withTemp_length (u : Upload) : (withTemp u).uploadLength = u.uploadLength := rfl

theorem withTemp_state (u : Upload) : (withTemp u).state = u.state := rfl

theorem afterStart_guid (u : Upload) : (afterStart u).guid = u.guid := by
  unfold afterStart; split <;> rfl

theorem afterStart_offset (u : Upload) :
    (afterStart u).uploadOffset = u.uploadOffset := by
  unfold afterStart; split <;> rfl

theorem afterStart_length (u : Upload) :
    (afterStart u).uploadLength = u.uploadLength := by
  unfold afterStart; split <;> rfl

theorem afterStart_state (u : Upload) :
    (afterStart u).state =
      if u.state = UState.initial then UState.receiving else u.state := by
  unfold afterStart; split <;> simp_all

theorem afterStart_state_of_ne (u : Upload) (h : u.state ≠ UState.initial) :
    (afterStart u).state = u.state := by
  rw [afterStart_state, if_neg h]

theorem mem_store2Of {store : Store} {u v : Upload}
    (h : v ∈ store2Of store u) :
    (v ∈ store ∧ v.guid ≠ u.guid) ∨ v = afterStart (withTemp u) := by
  unfold store2Of at h
  split at h
  case isTrue hinit =>
    rcases mem_saveStore h with h2 | ⟨h2, hg2⟩
    · right; exact h2
    · rcases mem_saveStore h2 with h3 | ⟨h3, hg3⟩
      · exfalso
        apply hg2
        rw [h3, withTemp_guid, afterStart_guid, withTemp_guid]
      · left
        refine ⟨h3, ?_⟩
        rw [afterStart_guid, withTemp_guid] at hg2
        exact hg2
  case isFalse hinit =>
    rcases mem_saveStore h with h2 | ⟨h2, hg2⟩
    · right
      rw [h2]
      unfold afterStart
      rw [if_neg (by rw [withTemp_state]; exact hinit)]
    · left
      exact ⟨h2, by simpa [withTemp_guid] using hg2⟩

theorem write_data_eq_some {u : Upload} {chunk : List Nat} {writeOk : Bool}
    {u3 : Upload} (h : write_data u chunk writeOk = some u3) :
    u.state = UState.receiving ∧
    u3.guid = u.guid ∧
    u3.uploadLength = u.uploadLength ∧
    u3.uploadOffset = u.uploadOffset + chunk.length ∧
    u3.uploadMetadata = u.uploadMetadata ∧
    (u3.state = UState.done ∨ u3.state = UState.receiving) ∧
    (u3.uploadLength = u3.uploadOffset → 0 ≤ u.uploadOffset →
      u3.state = UState.done) := by
  unfold write_data at h
  split at h
  · split at h
    · injection h with h3
      subst h3
      refine ⟨by assumption, rfl, rfl, rfl, rfl, ?_, ?_⟩
      · by_cases hc : 0 ≤ u.uploadLength ∧
            u.uploadOffset + (chunk.length : Int) = u.uploadLength
        · left; simp [hc]
        · right; simp [hc]
      · intro hlen hoff
        simp only at hlen
        have hc : 0 ≤ u.uploadLength ∧
            u.uploadOffset + (chunk.length : Int) = u.uploadLength := by
          constructor
          · rw [hlen]; positivity
          · omega
        simp [hc]
    · exact absurd h (by simp)
  · exact absurd h (by simp)

theorem write_data_of_not_receiving {u : Upload} {chunk : List Nat}
    {writeOk : Bool} (h : u.state ≠ UState.receiving) :
    write_data u chunk writeOk = none := by
  unfold write_data
  rw [if_neg h]

theorem mem_destroy {store : Store} {g : Nat} {v : Upload}
    (h : v ∈ (destroy store g).store) : v ∈ store := by
  unfold destroy at h
  split at h
  · exact h
  · split at h
    · exact h
    · exact (List.mem_filter.1 h).1

/-- The checksum section only ever produces the statuses 400 and 460. -/
theorem applyChecksum_some {supported : List String}
    {cm : String → String → List Nat → Bool}
    {checksum : Option (String × String)} {chunk : List Nat} {s : Nat}
    (h : applyChecksum supported cm checksum chunk = some s) :
    s = 400 ∨ s = 460 := by
  unfold applyChecksum at h
  split at h
  · exact absurd h (by simp)
  · split at h
    · split at h
      · exact absurd h (by simp)
      · injection h with h1
        exact Or.inr h1.symm
    · injection h with h1
      exact Or.inl h1.symm

/-- Exhaustive description of the outcomes of `patchFound`. -/
theorem patchFound_cases (supported : List String)
    (cm : String → String → List Nat → Bool) (writeOk : Bool) (store : Store)
    (g : Nat) (req : PatchRequest) (u : Upload) :
    patchFound supported cm writeOk store g req u =
        PatchResult.mk 409 store false none ∨
    (∃ s, applyChecksum supported cm req.checksum req.chunk = some s ∧
      patchFound supported cm writeOk store g req u =
        PatchResult.mk s (store2Of store u) false none) ∨
    (applyChecksum supported cm req.checksum req.chunk = none ∧
      write_data (afterStart (withTemp u)) req.chunk writeOk = none ∧
      patchFound supported cm writeOk store g req u =
        PatchResult.mk 400 (store2Of store u) true none) ∨
    (∃ u3, write_data (afterStart (withTemp u)) req.chunk writeOk = some u3 ∧
      patchFound supported cm writeOk store g req u =
        PatchResult.mk 204 (saveStore (store2Of store u) u3) true
          (if u3.uploadLength = u3.uploadOffset then some g else none)) := by
  unfold patchFound
  split
  · left; rfl
  · split
    · rename_i s hck
      right; left; exact ⟨s, hck, rfl⟩
    · rename_i hck
      split
      · rename_i hw
        right; right; left; exact ⟨hck, hw, rfl⟩
      · rename_i u3 hw
        right; right; right
        exact ⟨u3, hw, rfl⟩

theorem sysInv_nil : SysInv (Sys.mk [] 0) [] := by
  refine ⟨List.nodup_nil, ?_, ?_, ?_, ?_⟩ <;> simp

/-- The persisted pre-write mutations of an Append preserve the guid bound,
offset non-negativity and the done-ness of already-signalled records. -/
theorem store2Of_inv {store : Store} {n : Nat} {fired : List Nat} {u : Upload}
    (hu : u ∈ store)
    (hgb : ∀ v ∈ store, v.guid < n)
    (hob : ∀ v ∈ store, 0 ≤ v.uploadOffset)
    (hdone : ∀ g ∈ fired, ∀ v ∈ store, v.guid = g → v.state = UState.done) :
    (∀ v ∈ store2Of store u, v.guid < n) ∧
    (∀ v ∈ store2Of store u, 0 ≤ v.uploadOffset) ∧
    (∀ g ∈ fired, ∀ v ∈ store2Of store u, v.guid = g →
      v.state = UState.done) := by
  refine ⟨?_, ?_, ?_⟩
  · intro v hv
    rcases mem_store2Of hv with ⟨hvs, _⟩ | hv2
    · exact hgb v hvs
    · rw [hv2, afterStart_guid, withTemp_guid]; exact hgb u hu
  · intro v hv
    rcases mem_store2Of hv with ⟨hvs, _⟩ | hv2
    · exact hob v hvs
    · rw [hv2, afterStart_offset, withTemp_offset]; exact hob u hu
  · intro g hg v hv hvg
    rcases mem_store2Of hv with ⟨hvs, _⟩ | hv2
    · exact hdone g hg v hvs hvg
    · have hugid : u.guid = g := by
        rw [← hvg, hv2, afterStart_guid, withTemp_guid]
      have hust := hdone g hg u hu hugid
      rw [hv2, afterStart_state_of_ne, withTemp_state]
      · exact hust
      · rw [withTemp_state, hust]; intro hcon; exact UState.noConfusion hcon

/-- One Append preserves the system invariant and extends the signal list
soundly. -/
theorem patch_update_inv {store : Store} {n : Nat} {fired : List Nat}
    (supported : List String) (cm : String → String → List Nat → Bool)
    (writeOk : Bool) (g : Nat) (req : PatchRequest)
    (hinv : SysInv (Sys.mk store n) fired) :
    SysInv (Sys.mk (patch_update supported cm writeOk store g req).store n)
      (fired ++ ((patch_update supported cm writeOk store g req).fired).toList) := by
  obtain ⟨hnd, hfb, hgb, hob, hdone⟩ := hinv
  simp only [SysInv] at *
  unfold patch_update
  split
  case isFalse => simpa using ⟨hnd, hfb, hgb, hob, hdone⟩
  case isTrue =>
    split
    case h_1 => simpa using ⟨hnd, hfb, hgb, hob, hdone⟩
    case h_2 u heq =>
      obtain ⟨hu, hug⟩ := getObject_eq_some heq
      obtain ⟨hgb2, hob2, hdone2⟩ := store2Of_inv hu hgb hob hdone
      rcases patchFound_cases supported cm writeOk store g req u with
        hc | ⟨s, hck, hc⟩ | ⟨hck, hw0, hc⟩ | ⟨u3, hw, hc⟩
      · rw [hc]; simpa using ⟨hnd, hfb, hgb, hob, hdone⟩
      · rw [hc]; simpa using ⟨hnd, hfb, hgb2, hob2, hdone2⟩
      · rw [hc]; simpa using ⟨hnd, hfb, hgb2, hob2, hdone2⟩
      · obtain ⟨hrecv, hg3, hl3, ho3, hmeta3, hstates3, hdone3⟩ :=
          write_data_eq_some hw
        have hg3u : u3.guid = u.guid := by
          rw [hg3, afterStart_guid, withTemp_guid]
        have hustate : u.state ≠ UState.done := by
          intro hcon
          rw [afterStart_state, withTemp_state, hcon] at hrecv
          simp at hrecv
        have hgnotfired : g ∉ fired := by
          intro hcon
          exact hustate (hdone g hcon u hu hug)
        have ho3' : 0 ≤ u3.uploadOffset := by
          have h1 := hob u hu
          have hcl : (0 : Int) ≤ (req.chunk.length : Int) := by positivity
          rw [ho3, afterStart_offset, withTemp_offset]
          omega
        have hmem : ∀ v ∈ saveStore (store2Of store u) u3,
            v = u3 ∨ (v ∈ store2Of store u ∧ v.guid ≠ u.guid) := by
          intro v hv
          rcases mem_saveStore hv with hv2 | ⟨hv2, hvg⟩
          · left; exact hv2
          · right; exact ⟨hv2, by rwa [hg3u] at hvg⟩
        have hguid' : ∀ v ∈ saveStore (store2Of store u) u3, v.guid < n := by
          intro v hv
          rcases hmem v hv with hv2 | ⟨hv2, _⟩
          · rw [hv2, hg3u]; exact hgb u hu
          · exact hgb2 v hv2
        have hoff' : ∀ v ∈ saveStore (store2Of store u) u3,
            0 ≤ v.uploadOffset := by
          intro v hv
          rcases hmem v hv with hv2 | ⟨hv2, _⟩
          · rw [hv2]; exact ho3'
          · exact hob2 v hv2
        by_cases hfire : u3.uploadLength = u3.uploadOffset
        · have hu3done : u3.state = UState.done := by
            apply hdone3 hfire
            rw [afterStart_offset, withTemp_offset]
            exact hob u hu
          rw [hc]
          simp only [if_pos hfire, Option.toList_some]
          refine ⟨?_, ?_, hguid', hoff', ?_⟩
          · simpa [List.nodup_append] using ⟨hnd, hgnotfired⟩
          · intro g' hg'
            rcases List.mem_append.1 hg' with h1 | h1
            · exact hfb g' h1
            · have hgg : g' = g := by simpa using h1
              rw [hgg, ← hug]
              exact hgb u hu
          · intro g' hg' v hv hvg
            rcases List.mem_append.1 hg' with h1 | h1
            · rcases hmem v hv with hv2 | ⟨hv2, hvgne⟩
              · exfalso
                apply hustate
                apply hdone g' h1 u hu
                rw [← hvg, hv2, hg3u]
              · exact hdone2 g' h1 v hv2 hvg
            · have hgg : g' = g := by simpa using h1
              rcases hmem v hv with hv2 | ⟨hv2, hvgne⟩
              · rw [hv2]; exact hu3done
              · exfalso
                apply hvgne
                rw [hvg, hgg, hug]
        · rw [hc]
          simp only [if_neg hfire, Option.toList_none, List.append_nil]
          refine ⟨hnd, hfb, hguid', hoff', ?_⟩
          intro g' hg' v hv hvg
          rcases hmem v hv with hv2 | ⟨hv2, hvgne⟩
          · exfalso
            apply hustate
            apply hdone g' hg' u hu
            rw [← hvg, hv2, hg3u]
          · exact hdone2 g' hg' v hv2 hvg

/-- A Create preserves the system invariant (it sends no signal). -/
theorem create_inv {sys : Sys} {fired : List Nat} (cfg : Config) (now : Nat)
    (req : CreateRequest) (hinv : SysInv sys fired) :
    SysInv (create cfg now sys req).sys fired := by
  obtain ⟨hnd, hfb, hgb, hob, hdone⟩ := hinv
  unfold create
  split
  · split
    · exact ⟨hnd, hfb, hgb, hob, hdone⟩
    · split
      · exact ⟨hnd, hfb, hgb, hob, hdone⟩
      · refine ⟨hnd, ?_, ?_, ?_, ?_⟩
        · intro g hg
          exact Nat.lt_succ_of_lt (hfb g hg)
        · intro v hv
          rcases List.mem_append.1 hv with h1 | h1
          · exact Nat.lt_succ_of_lt (hgb v h1)
          · have : v = mkUpload cfg now sys req := by simpa using h1
            rw [this]
            exact Nat.lt_succ_self _
        · intro v hv
          rcases List.mem_append.1 hv with h1 | h1
          · exact hob v h1
          · have : v = mkUpload cfg now sys req := by simpa using h1
            rw [this]
            exact le_refl 0
        · intro g hg v hv hvg
          rcases List.mem_append.1 hv with h1 | h1
          · exact hdone g hg v h1 hvg
          · exfalso
            have hveq : v = mkUpload cfg now sys req := by simpa using h1
            have : v.guid = sys.nextGuid := by rw [hveq]; rfl
            have := hfb g hg
            omega
  · exact ⟨hnd, hfb, hgb, hob, hdone⟩

/-- A Terminate preserves the system invariant (it sends no signal). -/
theorem destroy_inv {sys : Sys} {fired : List Nat} (g : Nat)
    (hinv : SysInv sys fired) :
    SysInv (Sys.mk (destroy sys.store g).store sys.nextGuid) fired := by
  obtain ⟨hnd, hfb, hgb, hob, hdone⟩ := hinv
  refine ⟨hnd, hfb, ?_, ?_, ?_⟩
  · intro v hv
    exact hgb v (mem_destroy hv)
  · intro v hv
    exact hob v (mem_destroy hv)
  · intro g' hg' v hv hvg
    exact hdone g' hg' v (mem_destroy hv) hvg

/-- Every step of the system preserves the invariant. -/
theorem step_inv {sys : Sys} {fired : List Nat} (cfg : Config)
    (supported : List String) (cm : String → String → List Nat → Bool)
    (op : Op) (hinv : SysInv sys fired) :
    SysInv (step cfg supported cm sys op).1
      (fired ++ (step cfg supported cm sys op).2.toList) := by
  match op with
  | Op.createOp now req =>
    simpa [step] using create_inv cfg now req hinv
  | Op.headOp g h =>
    simpa [step] using hinv
  | Op.patchOp g req writeOk =>
    have h1 := @patch_update_inv sys.store sys.nextGuid fired supported cm
      writeOk g req (by exact hinv)
    simpa [step] using h1
  | Op.destroyOp g =>
    simpa [step] using destroy_inv g hinv

/-- Running any operation sequence from an invariant state keeps the
invariant. -/
theorem runAcc_inv (cfg : Config) (supported : List String)
    (cm : String → String → List Nat → Bool) (ops : List Op) :
    ∀ (sys : Sys) (fired : List Nat), SysInv sys fired →
      SysInv (runAcc cfg supported cm sys fired ops).1
        (runAcc cfg supported cm sys fired ops).2 := by
  induction ops with
  | nil =>
    intro sys fired hinv
    simpa [runAcc] using hinv
  | cons op rest ih =>
    intro sys fired hinv
    simpa [runAcc] using ih _ _ (step_inv cfg supported cm op hinv)

/-! ### Claim theorems -/

/-- Claim C7: over any sequence of operations run against the pristine system,
the "received" notification fires at most once per upload identifier — it is
sent by the Append that reaches `offset == declared_length` (views.py lines
207-209), and no later sequence of operations on the same id makes it fire a
second time. -/
theorem received_signal_at_most_once (cfg : Config) (supported : List String)
    (cm : String → String → List Nat → Bool) (ops : List Op) (g : Nat) :
    (runFired cfg supported cm ops).count g ≤ 1 := by
  have h := runAcc_inv cfg supported cm ops (Sys.mk [] 0) [] sysInv_nil
  unfold runFired
  exact List.nodup_iff_count_le_one.1 h.1 g

/-- Sanity: the property above is not vacuous — the signal does fire once on a
completing Append. -/
theorem received_signal_fires_example :
    runFired cfgW supportedW cmTrue
      [Op.createOp 0 reqCreate3, Op.patchOp 0 reqPatchFull true] = [0] := rfl

/-- Claim C9: Terminate on a found record in state `Saving` fails with 409 and
removes nothing; on a found record in any other state (including `done`) it
succeeds with 204 and removes the record. -/
theorem terminate_rules (store : Store) (g : Nat) (u : Upload)
    (hfound : getObject store g = some u) :
    (u.state = UState.saving → destroy store g = DestroyResult.mk 409 store) ∧
    (u.state ≠ UState.saving →
      (destroy store g).status = 204 ∧
      (destroy store g).store = store.filter (fun v => !(v.guid == g)) ∧
      getObject (destroy store g).store g = none) := by
  constructor
  · intro hs
    simp only [destroy, hfound]
    rw [if_pos hs]
  · intro hs
    simp only [destroy, hfound]
    rw [if_neg hs]
    refine ⟨rfl, rfl, ?_⟩
    unfold getObject
    rw [List.find?_eq_none]
    intro v hv
    have h2 := (List.mem_filter.1 hv).2
    simp only [Bool.not_eq_true'] at h2
    simp [h2]

/-- Witness for C9: a `saving` record survives Terminate with 409; a `done`
record is removed with 204. -/
theorem terminate_rules_witness :
    (destroy [uSavingW] 3 = DestroyResult.mk 409 [uSavingW]) ∧
    ((destroy [uDoneW] 7).status = 204 ∧
      (destroy [uDoneW] 7).store = [uDoneW].filter (fun v => !(v.guid == 7)) ∧
      getObject (destroy [uDoneW] 7).store 7 = none) :=
  ⟨(terminate_rules [uSavingW] 3 uSavingW rfl).1 rfl,
   (terminate_rules [uDoneW] 7 uDoneW rfl).2 (by decide)⟩

/-- Claim C3: an Append whose expected offset differs from the record's
current offset raises `Conflict` (409) and leaves the store entirely
unchanged — no storage write is attempted and no signal is sent. -/
theorem conflict_leaves_record_unchanged (supported : List String)
    (cm : String → String → List Nat → Bool) (writeOk : Bool) (store : Store)
    (g : Nat) (u : Upload) (req : PatchRequest)
    (hreq : req.hasTusHeader = true)
    (hfound : getObject store g = some u)
    (hmis : req.uploadOffset ≠ u.uploadOffset) :
    patch_update supported cm writeOk store g req =
      PatchResult.mk 409 store false none := by
  simp only [patch_update, hreq, if_true, hfound]
  unfold patchFound
  rw [if_pos hmis]

/-- Witness for C3: a stale offset 0 against a record at offset 40 yields the
409 result with the store untouched. -/
theorem conflict_witness :
    patch_update supportedW cmTrue true [uRecvW] 0 reqPatch0 =
      PatchResult.mk 409 [uRecvW] false none :=
  conflict_leaves_record_unchanged supportedW cmTrue true [uRecvW] 0 uRecvW
    reqPatch0 rfl rfl (by decide)

/-- Claim C4: an Append carrying a declared checksum is gated before the
storage write (views.py lines 186-194 precede the `write_data` call of line
199): an unsupported algorithm fails with 400 and a digest mismatch fails
with 460, in both cases without attempting the write and without advancing
any record's offset. -/
theorem checksum_gating (supported : List String)
    (cm : String → String → List Nat → Bool) (writeOk : Bool) (store : Store)
    (g : Nat) (u : Upload) (req : PatchRequest) (algo digest : String)
    (hreq : req.hasTusHeader = true)
    (hfound : getObject store g = some u)
    (hoff : req.uploadOffset = u.uploadOffset)
    (hck : req.checksum = some (algo, digest)) :
    (algo ∉ supported →
      patch_update supported cm writeOk store g req =
        PatchResult.mk 400 (store2Of store u) false none) ∧
    (algo ∈ supported → cm algo digest req.chunk = false →
      patch_update supported cm writeOk store g req =
        PatchResult.mk 460 (store2Of store u) false none) ∧
    (∀ v ∈ store2Of store u, v.guid = g →
      v.uploadOffset = u.uploadOffset) := by
  obtain ⟨hu, hug⟩ := getObject_eq_some hfound
  have hnotmis : ¬(req.uploadOffset ≠ u.uploadOffset) := by
    intro hcon; exact hcon hoff
  refine ⟨?_, ?_, ?_⟩
  · intro halgo
    simp only [patch_update, hreq, if_true, hfound]
    unfold patchFound
    rw [if_neg hnotmis]
    have hcksum : applyChecksum supported cm req.checksum req.chunk =
        some 400 := by
      simp only [applyChecksum, hck]
      rw [if_neg halgo]
    rw [hcksum]
  · intro halgo hcm
    simp only [patch_update, hreq, if_true, hfound]
    unfold patchFound
    rw [if_neg hnotmis]
    have hcksum : applyChecksum supported cm req.checksum req.chunk =
        some 460 := by
      simp only [applyChecksum, hck]
      rw [if_pos halgo, hcm]
      simp
    rw [hcksum]
  · intro v hv hvg
    rcases mem_store2Of hv with ⟨hvs, hvne⟩ | hv2
    · exact absurd (hvg.trans hug.symm) hvne
    · rw [hv2, afterStart_offset, withTemp_offset]

/-- Witness for C4: the unsupported algorithm `md5` is rejected with 400 and
no write attempt. -/
theorem checksum_gating_witness :
    patch_update supportedW cmTrue true [uRecvW] 0 reqPatchBadAlgo =
      PatchResult.mk 400 (store2Of [uRecvW] uRecvW) false none :=
  (checksum_gating supportedW cmTrue true [uRecvW] 0 uRecvW reqPatchBadAlgo
    ("md5") ("aaa") rfl rfl rfl rfl).1 (by decide)

/-- Claim C10: `validate_content_type` builds a 400 response for a missing or
wrong Content-Type, but `partial_update` discards its return value (views.py
line 163), so the outcome of an Append does not depend on the Content-Type
header at all. -/
theorem content_type_has_no_effect :
    (∀ ct, ct ≠ tusUploadStreamMediaType →
      validate_content_type ct = some 400) ∧
    validate_content_type tusUploadStreamMediaType = none ∧
    (∀ (supported : List String) (cm : String → String → List Nat → Bool)
      (writeOk : Bool) (store : Store) (g : Nat) (req : PatchRequest)
      (ct : String),
      patch_update supported cm writeOk store g
        (PatchRequest.mk req.hasTusHeader req.uploadOffset req.chunk
          req.checksum ct) =
      patch_update supported cm writeOk store g req) := by
  refine ⟨?_, ?_, ?_⟩
  · intro ct h
    unfold validate_content_type
    rw [if_pos (Or.inr h)]
  · decide
  · intro supported cm writeOk store g req ct
    cases req
    rfl

/-- Witness for C10: the empty Content-Type gets a 400 response object built,
yet an Append with Content-Type `text/plain` has exactly the same outcome as
one with the proper media type. -/
theorem content_type_witness :
    validate_content_type ("") = some 400 ∧
    patch_update supportedW cmTrue true [uRecvW] 0
      (PatchRequest.mk true 40 [1, 2, 3] none ("text/plain")) =
    patch_update supportedW cmTrue true [uRecvW] 0 reqPatch40 :=
  ⟨content_type_has_no_effect.1 ("") (by decide),
   content_type_has_no_effect.2.2 supportedW cmTrue true [uRecvW] 0
     reqPatch40 ("text/plain")⟩

/-- Claim C2: against a Completed record (`declared_length >= 0`,
`offset == declared_length`, state `done`), no Append succeeds — including a
zero-length probe at the matching offset: the response is never 204, the
signal never fires again, and the record keeps its offset and its `done`
state. (`write_data` is modelled from the spec: the state machine has no
transition out of `Completed`, so the write raises and views.py line 201
answers 400.) -/
theorem completed_append_never_succeeds (supported : List String)
    (cm : String → String → List Nat → Bool) (writeOk : Bool) (store : Store)
    (g : Nat) (u : Upload) (req : PatchRequest)
    (hfound : getObject store g = some u)
    (hlen : 0 ≤ u.uploadLength)
    (hoff : u.uploadOffset = u.uploadLength)
    (hdone : u.state = UState.done)
    (huniq : ∀ v ∈ store, v.guid = g → v = u) :
    (patch_update supported cm writeOk store g req).status ≠ 204 ∧
    (patch_update supported cm writeOk store g req).fired = none ∧
    (∀ v ∈ (patch_update supported cm writeOk store g req).store,
      v.guid = g → v.uploadOffset = u.uploadOffset ∧
        v.state = UState.done) := by
  obtain ⟨hu, hug⟩ := getObject_eq_some hfound
  have hwnone : write_data (afterStart (withTemp u)) req.chunk writeOk =
      none := by
    apply write_data_of_not_receiving
    rw [afterStart_state, withTemp_state, hdone]
    simp
  have hstore2 : ∀ v ∈ store2Of store u, v.guid = g →
      v.uploadOffset = u.uploadOffset ∧ v.state = UState.done := by
    intro v hv hvg
    rcases mem_store2Of hv with ⟨hvs, hvne⟩ | hv2
    · exact absurd (hvg.trans hug.symm) hvne
    · rw [hv2, afterStart_offset, withTemp_offset,
        afterStart_state_of_ne, withTemp_state]
      · exact ⟨rfl, hdone⟩
      · rw [withTemp_state, hdone]
        intro hcon
        exact UState.noConfusion hcon
  have hstore : ∀ v ∈ store, v.guid = g →
      v.uploadOffset = u.uploadOffset ∧ v.state = UState.done := by
    intro v hv hvg
    rw [huniq v hv hvg]
    exact ⟨rfl, hdone⟩
  unfold patch_update
  split
  case isTrue hh =>
    simp only [hfound]
    rcases patchFound_cases supported cm writeOk store g req u with
      hc | ⟨s, hck, hc⟩ | ⟨hck, hw0, hc⟩ | ⟨u3, hw, hc⟩
    · rw [hc]
      exact ⟨by simp, rfl, hstore⟩
    · rw [hc]
      rcases applyChecksum_some hck with h4 | h4 <;>
        exact ⟨by simp [h4], rfl, hstore2⟩
    · rw [hc]
      exact ⟨by simp, rfl, hstore2⟩
    · rw [hw] at hwnone
      exact absurd hwnone (by simp)
  case isFalse hh =>
    exact ⟨by simp, rfl, hstore⟩

/-- Witness for C2: a zero-length matching-offset Append on the completed
record `uDoneW` does not return 204 and does not fire the signal. -/
theorem completed_append_witness :
    (patch_update supportedW cmTrue true [uDoneW] 7 reqPatchDone).status ≠
      204 ∧
    (patch_update supportedW cmTrue true [uDoneW] 7 reqPatchDone).fired =
      none :=
  ⟨(completed_append_never_succeeds supportedW cmTrue true [uDoneW] 7 uDoneW
      reqPatchDone rfl (by decide) (by decide) rfl (by decide)).1,
   (completed_append_never_succeeds supportedW cmTrue true [uDoneW] 7 uDoneW
      reqPatchDone rfl (by decide) (by decide) rfl (by decide)).2.1⟩

/-- Claim C1 counterexample: `uRecvW` is expired at time 10 (its `expires` is
5), yet Inspect returns 200 with its data while Inspect of a never-created id
returns 404 — an expired record is distinguishable from a never-created one,
refuting expiry opacity. -/
theorem expiry_opacity_counterexample :
    uRecvW.expires = some 5 ∧ 5 ≤ 10 ∧
    (info [uRecvW] 0 true).status = 200 ∧
    (info ([] : Store) 0 true).status = 404 :=
  ⟨rfl, by omega, rfl, rfl⟩

/-- Claim C1 (amended): no operation consults `expires_at` against the clock
(`get_queryset` is `objects.all()`, views.py lines 260-261, and no view
compares `expires` with the current time): a found record whose expiry is in
the past is served exactly like a live one — Inspect returns 200 with its
offset and data, Terminate follows its usual rules, and Append never answers
404 for it. -/
theorem expiry_ignored_by_operations (store : Store) (g : Nat) (u : Upload)
    (e now : Nat)
    (hfound : getObject store g = some u)
    (hexp : u.expires = some e)
    (hpast : e ≤ now) :
    info store g true =
      InfoResult.mk 200 (some u.uploadOffset)
        (if 0 ≤ u.uploadLength then some u.uploadLength else none)
        u.expires ∧
    (u.state = UState.saving → destroy store g = DestroyResult.mk 409 store) ∧
    (u.state ≠ UState.saving → (destroy store g).status = 204) ∧
    (∀ (supported : List String) (cm : String → String → List Nat → Bool)
      (writeOk : Bool) (req : PatchRequest), req.hasTusHeader = true →
      (patch_update supported cm writeOk store g req).status ≠ 404) := by
  refine ⟨?_, ?_, ?_, ?_⟩
  · simp only [info, hfound, if_true]
  · intro hs
    simp only [destroy, hfound]
    rw [if_pos hs]
  · intro hs
    simp only [destroy, hfound]
    rw [if_neg hs]
  · intro supported cm writeOk req hreq
    simp only [patch_update, hreq, if_true, hfound]
    rcases patchFound_cases supported cm writeOk store g req u with
      hc | ⟨s, hck, hc⟩ | ⟨hck, hw0, hc⟩ | ⟨u3, hw, hc⟩
    · rw [hc]; simp
    · rw [hc]
      rcases applyChecksum_some hck with h4 | h4 <;> simp [h4]
    · rw [hc]; simp
    · rw [hc]; simp

/-- Witness for C1 (amended): the expired `uRecvW` is still served — Inspect
200 with its offset, and an Append is not told 404. -/
theorem expiry_ignored_witness :
    info [uRecvW] 0 true =
      InfoResult.mk 200 (some 40) (some 100) (some 5) ∧
    (patch_update supportedW cmTrue true [uRecvW] 0 reqPatch0).status ≠ 404 :=
  ⟨(expiry_ignored_by_operations [uRecvW] 0 uRecvW 5 10 rfl rfl
      (by omega)).1,
   (expiry_ignored_by_operations [uRecvW] 0 uRecvW 5 10 rfl rfl
      (by omega)).2.2.2 supportedW cmTrue true reqPatch0 rfl⟩

/-- Claim C5 counterexample: on an `Initial` record, an Append whose checksum
fails is rejected with 460 only after the `Initial → Receiving` transition has
been persisted (views.py lines 179-181 run before lines 186-194): the stored
state after the failed request is `receiving`, not the pre-request
`initial`. -/
theorem premature_mutation_counterexample :
    uInitialW.state = UState.initial ∧
    (patch_update supportedW cmFalse true [uInitialW] 0 reqPatchBadCk).status
      = 460 ∧
    getObject
      (patch_update supportedW cmFalse true [uInitialW] 0 reqPatchBadCk).store
      0 = some (⟨0, 100, 0, [], "", UState.receiving, none, true⟩ : Upload) ∧
    UState.receiving ≠ UState.initial :=
  ⟨rfl, rfl, rfl, by decide⟩

/-- Claim C5 (amended): offset-conflict validation does precede all mutation
(a 409 leaves the store untouched), but checksum validation runs only after
the persisted temp-file creation and `Initial → Receiving` transition: an
Append failing a checksum check leaves every record's offset unchanged, yet
the target record's state is `Receiving` whenever it was `Initial` (otherwise
unchanged). -/
theorem validation_mutation_boundary (supported : List String)
    (cm : String → String → List Nat → Bool) (writeOk : Bool) (store : Store)
    (g : Nat) (u : Upload) (req : PatchRequest) (s : Nat)
    (hreq : req.hasTusHeader = true)
    (hfound : getObject store g = some u) :
    (req.uploadOffset ≠ u.uploadOffset →
      patch_update supported cm writeOk store g req =
        PatchResult.mk 409 store false none) ∧
    (req.uploadOffset = u.uploadOffset →
      applyChecksum supported cm req.checksum req.chunk = some s →
      patch_update supported cm writeOk store g req =
        PatchResult.mk s (store2Of store u) false none ∧
      (∀ v ∈ store2Of store u, v.guid = g →
        v.uploadOffset = u.uploadOffset ∧
        v.state = (if u.state = UState.initial then UState.receiving
                   else u.state))) := by
  obtain ⟨hu, hug⟩ := getObject_eq_some hfound
  constructor
  · intro hmis
    simp only [patch_update, hreq, if_true, hfound]
    unfold patchFound
    rw [if_pos hmis]
  · intro hoff hck
    have hnotmis : ¬(req.uploadOffset ≠ u.uploadOffset) := by
      intro hcon; exact hcon hoff
    constructor
    · simp only [patch_update, hreq, if_true, hfound]
      unfold patchFound
      rw [if_neg hnotmis, hck]
    · intro v hv hvg
      rcases mem_store2Of hv with ⟨hvs, hvne⟩ | hv2
      · exact absurd (hvg.trans hug.symm) hvne
      · rw [hv2, afterStart_offset, withTemp_offset, afterStart_state,
          withTemp_state]
        exact ⟨rfl, rfl⟩

/-- Witness for C5 (amended): the rejected-checksum Append against the
`Initial` record yields 460 with the pre-write mutations persisted. -/
theorem validation_boundary_witness :
    patch_update supportedW cmFalse true [uInitialW] 0 reqPatchBadCk =
      PatchResult.mk 460 (store2Of [uInitialW] uInitialW) false none :=
  ((validation_mutation_boundary supportedW cmFalse true [uInitialW] 0
      uInitialW reqPatchBadCk 460 rfl rfl).2 rfl rfl).1

/-- Claim C6 counterexample: a failing storage write is surfaced with HTTP
400 (views.py line 201) — the very same status as the missing-header
BadRequest and as the unsupported-algorithm error — so WriteFailed is not a
signal distinct from BadRequest. -/
theorem writefailed_not_distinct_counterexample :
    (patch_update supportedW cmTrue false [uRecvW] 0 reqPatch40).status =
      400 ∧
    (patch_update supportedW cmTrue true [uRecvW] 0 reqPatchNoHdr).status =
      400 ∧
    (patch_update supportedW cmTrue true [uRecvW] 0 reqPatchBadAlgo).status =
      400 :=
  ⟨rfl, rfl, rfl⟩

/-- Claim C6 (amended): when the chunk-store write fails, the record keeps
its offset and its pre-write state (the spec-modelled `write_data` reverts
internally), but the failure is surfaced as a generic 400 response carrying
the exception text (views.py lines 200-201) — the same status as other client
errors, not a distinct WriteFailed signal. -/
theorem write_failure_reverts_but_is_400 (supported : List String)
    (cm : String → String → List Nat → Bool) (store : Store) (g : Nat)
    (u : Upload) (req : PatchRequest)
    (hreq : req.hasTusHeader = true)
    (hfound : getObject store g = some u)
    (hoff : req.uploadOffset = u.uploadOffset)
    (hck : applyChecksum supported cm req.checksum req.chunk = none) :
    patch_update supported cm false store g req =
      PatchResult.mk 400 (store2Of store u) true none ∧
    (∀ v ∈ store2Of store u, v.guid = g →
      v.uploadOffset = u.uploadOffset ∧
      v.state = (if u.state = UState.initial then UState.receiving
                 else u.state)) := by
  obtain ⟨hu, hug⟩ := getObject_eq_some hfound
  have hnotmis : ¬(req.uploadOffset ≠ u.uploadOffset) := by
    intro hcon; exact hcon hoff
  have hwnone : write_data (afterStart (withTemp u)) req.chunk false =
      none := by
    unfold write_data
    split
    · simp
    · rfl
  constructor
  · simp only [patch_update, hreq, if_true, hfound]
    unfold patchFound
    rw [if_neg hnotmis, hck, hwnone]
  · intro v hv hvg
    rcases mem_store2Of hv with ⟨hvs, hvne⟩ | hv2
    · exact absurd (hvg.trans hug.symm) hvne
    · rw [hv2, afterStart_offset, withTemp_offset, afterStart_state,
        withTemp_state]
      exact ⟨rfl, rfl⟩

/-- Witness for C6 (amended): the failing write over `uRecvW` returns the
400 result with the write attempted and no signal. -/
theorem write_failure_witness :
    patch_update supportedW cmTrue false [uRecvW] 0 reqPatch40 =
      PatchResult.mk 400 (store2Of [uRecvW] uRecvW) true none :=
  (write_failure_reverts_but_is_400 supportedW cmTrue [uRecvW] 0 uRecvW
    reqPatch40 rfl rfl rfl rfl).1

/-- Claim C8 counterexample: with maximum size 100, a Create declaring length
0 with no defer signal satisfies `0 ≤ 0 ≤ max`, yet is rejected with 400
(Python's `not upload_length` is true for `0`, views.py line 98) instead of
succeeding. -/
theorem create_zero_length_counterexample :
    (0 : Int) ≤ 0 ∧ (0 : Int) ≤ cfgW.maxFileSize ∧
    reqCreate0.uploadLength = some 0 ∧ reqCreate0.deferLength = none ∧
    create cfgW 0 sysW reqCreate0 = CreateResult.mk 400 sysW none :=
  ⟨le_refl 0, by decide, rfl, rfl, rfl⟩

/-- Claim C8 (amended): Create succeeds (201, a fresh record with offset 0 and
state Initial) for every declared length `1 ≤ L ≤ max` with no defer signal;
a declared length `L ≤ 0` — including `0`, which the code lumps together with
"deferred" — requires the explicit defer signal `1`: without it Create fails
with 400, with it Create succeeds. -/
theorem create_validation_rules (cfg : Config) (now : Nat) (sys : Sys)
    (req : CreateRequest) (L : Int)
    (hreq : req.hasTusHeader = true)
    (hL : req.uploadLength = some L)
    (hmax : L ≤ cfg.maxFileSize) :
    (1 ≤ L →
      create cfg now sys req =
        CreateResult.mk 201
          (Sys.mk (sys.store ++ [mkUpload cfg now sys req])
            (sys.nextGuid + 1))
          (some sys.nextGuid)) ∧
    (L ≤ 0 → req.deferLength.getD (-1) ≠ 1 →
      create cfg now sys req = CreateResult.mk 400 sys none) ∧
    (L ≤ 0 → req.deferLength.getD (-1) = 1 →
      create cfg now sys req =
        CreateResult.mk 201
          (Sys.mk (sys.store ++ [mkUpload cfg now sys req])
            (sys.nextGuid + 1))
          (some sys.nextGuid)) ∧
    (mkUpload cfg now sys req).uploadOffset = 0 ∧
    (mkUpload cfg now sys req).state = UState.initial := by
  have hnotbig : ¬(cfg.maxFileSize < req.uploadLength.getD (-1)) := by
    rw [hL]
    simp only [Option.getD_some]
    omega
  refine ⟨?_, ?_, ?_, rfl, rfl⟩
  · intro hpos
    unfold create
    rw [if_pos hreq, if_neg hnotbig, if_neg]
    rw [hL]
    simp only [Option.getD_some]
    intro hcon
    rcases hcon.1 with h1 | h1 <;> omega
  · intro hle hdefer
    unfold create
    rw [if_pos hreq, if_neg hnotbig, if_pos]
    constructor
    · rw [hL]
      simp only [Option.getD_some]
      omega
    · exact hdefer
  · intro hle hdefer
    unfold create
    rw [if_pos hreq, if_neg hnotbig, if_neg]
    intro hcon
    exact hcon.2 hdefer

/-- Witness for C8 (amended): Create with declared length 50 and no defer
signal succeeds with a fresh offset-0 record. -/
theorem create_validation_witness :
    create cfgW 0 sysW reqCreate50 =
      CreateResult.mk 201
        (Sys.mk [mkUpload cfgW 0 sysW reqCreate50] 1) (some 0) :=
  (create_validation_rules cfgW 0 sysW reqCreate50 50 rfl rfl
    (by decide)).1 (by decide)

end DrfTus
